import Mathlib

set_option maxRecDepth 4000

namespace HanimeStremio

/-!
Shallow embedding of the hanime-stremio multi-tier caching and
credential-session subsystem.

The definitions below are translated from the repository's JavaScript
sources: the tiered cache wrapper of the multi-store cache module, the
`UserApiManager` login single-flight logic, the `HanimeUserApi`
session-refresh client, and the image-proxy deduplication pipeline.
JavaScript runs on a single-threaded event loop, so concurrent async
calls interleave only at `await` boundaries; stateful operations are
embedded as explicit state-passing functions whose atomic steps match
the await-free sections of the source.
-/

/-- Association-list lookup, modelling a read of a JS `Map` (or plain object)
keyed by strings: `m.get(key)`, yielding `undefined` (`none`) when absent. -/
def assocLookup {α : Type} : List (String × α) → String → Option α
  | [], _ => none
  | (k, v) :: rest, key => if k = key then some v else assocLookup rest key

/-- Association-list update modelling JS `Map.set`: replaces the value stored
at an existing key, otherwise appends a fresh entry at the end. -/
def assocSet {α : Type} : List (String × α) → String → α → List (String × α)
  | [], key, v => [(key, v)]
  | (k, w) :: rest, key, v =>
    if k = key then (key, v) :: rest else (k, w) :: assocSet rest key v

/-- Association-list removal modelling JS `Map.delete`: a JS map holds at most
one entry per key, so deletion is removal of every entry at that key. -/
def assocDelete {α : Type} (l : List (String × α)) (key : String) : List (String × α) :=
  l.filter (fun p => p.1 ≠ key)

theorem assocLookup_set_self {α : Type} (l : List (String × α)) (k : String) (v : α) :
    assocLookup (assocSet l k v) k = some v := by
  induction l with
  | nil => simp [assocSet, assocLookup]
  | cons p rest ih =>
    obtain ⟨k', w⟩ := p
    by_cases h : k' = k
    · simp [assocSet, h, assocLookup]
    · simp [assocSet, h, assocLookup, ih]

theorem assocLookup_delete_self {α : Type} (l : List (String × α)) (k : String) :
    assocLookup (assocDelete l k) k = none := by
  induction l with
  | nil => simp [assocDelete, assocLookup]
  | cons p rest ih =>
    obtain ⟨k', w⟩ := p
    by_cases h : k' = k
    · simpa [assocDelete, h, assocLookup] using ih
    · simpa [assocDelete, h, assocLookup] using ih

theorem mem_keys_assocSet {α : Type} (l : List (String × α)) (k a : String) (v : α)
    (h : a ∈ (assocSet l k v).map Prod.fst) : a = k ∨ a ∈ l.map Prod.fst := by
  induction l with
  | nil => simpa [assocSet] using h
  | cons p rest ih =>
    obtain ⟨k0, w⟩ := p
    by_cases h0 : k0 = k
    · simp [assocSet, h0] at h
      rcases h with h | h
      · exact Or.inl h
      · exact Or.inr (by simp [h])
    · simp [assocSet, h0] at h
      rcases h with h | h
      · exact Or.inr (by simp [h])
      · rcases ih (by simpa using h) with h1 | h1
        · exact Or.inl h1
        · exact Or.inr (by simp [h1])

theorem nodup_keys_assocSet {α : Type} (l : List (String × α)) (k : String) (v : α)
    (h : (l.map Prod.fst).Nodup) : ((assocSet l k v).map Prod.fst).Nodup := by
  induction l with
  | nil => simp [assocSet]
  | cons p rest ih =>
    obtain ⟨k0, w⟩ := p
    rw [List.map_cons, List.nodup_cons] at h
    by_cases h0 : k0 = k
    · subst h0
      simpa [assocSet, List.nodup_cons] using h
    · rw [show assocSet ((k0, w) :: rest) k v = (k0, w) :: assocSet rest k v by
        simp [assocSet, h0]]
      rw [List.map_cons, List.nodup_cons]
      refine ⟨?_, ih h.2⟩
      intro hmem
      rcases mem_keys_assocSet rest k k0 v hmem with h1 | h1
      · exact h0 h1
      · exact h.1 h1

theorem nodup_keys_assocDelete {α : Type} (l : List (String × α)) (k : String)
    (h : (l.map Prod.fst).Nodup) : ((assocDelete l k).map Prod.fst).Nodup :=
  h.sublist ((List.filter_sublist l).map Prod.fst)

/-!
Tiered cache (the multi-store cache module).

A JSON-ish value universe for cached payloads, mirroring the dynamic
checks of `_shouldCache`.
-/

/-- JavaScript values as seen by the cache module's dynamic checks:
`null`, `undefined`, objects (finite string-keyed field lists), and
non-object primitives (strings, numbers, booleans). -/
inductive JsValue where
  | vnull
  | vundef
  | vobj (fields : List (String × JsValue))
  | vstr (s : String)
  | vnum (n : Int)
  | vbool (b : Bool)

/-- Check if data should be cached, from `_shouldCache` in the cache module:
rejects `null`/`undefined`, objects whose `meta` field is `null`
(the domain "not found" shape), and structurally empty objects
(`Object.keys(data).length === 0`); every other value — including falsy
primitives such as `0`, `""` and `false`, which fail the
`typeof data === 'object'` guard — is cacheable. -/
def _shouldCache (data : JsValue) : Bool :=
  match data with
  | .vnull => false
  | .vundef => false
  | .vobj fields =>
    match assocLookup fields "meta" with
    | some .vnull => false
    | _ => if fields.length = 0 then false else true
  | _ => true

/-- A backing store (a Keyv instance: the in-memory L1 or the Redis L2).
`contents` maps keys to stored value and the TTL it was written with;
`failGet`/`failSet` make the corresponding operation reject, modelling a
backing-store error (e.g. a Redis connection failure). -/
structure Store where
  contents : List (String × (JsValue × Nat))
  failGet : Bool
  failSet : Bool

/-- A `store.get(key)` call: rejects when the store is failing, otherwise
resolves with the stored value or `undefined` (`none`) when absent. -/
def storeGet (s : Store) (key : String) : Except Unit (Option (JsValue × Nat)) :=
  if s.failGet then .error () else .ok (assocLookup s.contents key)

/-- A `store.set(key, value, ttl)` call: rejects when the store is failing,
otherwise resolves after recording the entry. -/
def storeSet (s : Store) (key : String) (v : JsValue) (ttl : Nat) : Except Unit Store :=
  if s.failSet then .error ()
  else .ok { s with contents := assocSet s.contents key (v, ttl) }

/-- The `existing !== undefined` hit test applied to a (possibly failed)
store read: a store error or an absent key is a miss, and so is a stored
`undefined`, which is indistinguishable from absence in the source. -/
def jsHit : Except Unit (Option (JsValue × Nat)) → Option JsValue
  | .ok (some (.vundef, _)) => none
  | .ok (some (v, _)) => some v
  | _ => none

/-- A value passed as the `cache` argument of `_cacheWrap`. `multi` is the
plain object with a `stores` array built by `_createMultiCache`; `keyv` is a
plain Keyv instance (the binary-image cache), which exposes a single `store`
option but defines no `stores` property. -/
inductive CacheObj where
  | multi (stores : List Store)
  | keyv (store : Store)

/-- The read `cache.stores || []` in `_cacheWrap`: the `stores` array of the
multi-cache object; on a plain Keyv instance the property is absent, so the
read yields `undefined` and the `|| []` fallback gives the empty array. -/
def cacheStores : CacheObj → List Store
  | .multi ss => ss
  | .keyv _ => []

/-- Replace the `stores` array of a cache object, leaving a plain Keyv
instance untouched (its single store is never reached by `_cacheWrap`). -/
def withStores : CacheObj → List Store → CacheObj
  | .multi _, ss => .multi ss
  | .keyv s, _ => .keyv s

/-- Observable effects of one `_cacheWrap` call, in order. -/
inductive CacheEv where
  | l1Get
  | l2Get
  | computeRun
  | l1Set (ok : Bool)
  | l2Set (ok : Bool)
  | promoteL1 (ok : Bool)
deriving DecidableEq

/-- Outcome of a `_cacheWrap` call over the two stores it may touch.
`sync` lists the effects that complete before the call's promise resolves;
`async` lists the fire-and-forget effects (L1 promotion on an L2 hit, the
background L2 write) that are left running when it resolves. `l1After` and
`l2After` are the store states once every effect has settled. -/
structure WrapCore where
  result : Except String JsValue
  computeCalls : Nat
  l1After : Option Store
  l2After : Option Store
  sync : List CacheEv
  async : List CacheEv

/-- The body of `_cacheWrap` once `l1Store = stores[0]` and
`l2Store = stores[1]` have been read, translated clause by clause:
try L1 (errors are caught and treated as a miss); on miss try L2 (same),
promoting an L2 hit into L1 without blocking the return; on a double miss
run the compute function — its rejection propagates unguarded — then skip
the write-back when `_shouldCache` fails, otherwise write L1 synchronously
and L2 in the background (an L1 write error is caught by the surrounding
try, which also skips the L2 write; an L2 write error is caught by the
attached handler). -/
def _cacheWrapCore (l1? l2? : Option Store) (key : String)
    (method : Except String JsValue) (ttl : Nat) : WrapCore :=
  let ev1 : List CacheEv := match l1? with | some _ => [.l1Get] | none => []
  let l1HitVal : Option JsValue := match l1? with
    | some s => jsHit (storeGet s key)
    | none => none
  match l1HitVal with
  | some v =>
    { result := .ok v, computeCalls := 0, l1After := l1?, l2After := l2?,
      sync := ev1, async := [] }
  | none =>
    let ev2 : List CacheEv := ev1 ++ (match l2? with | some _ => [.l2Get] | none => [])
    let l2HitVal : Option JsValue := match l2? with
      | some s => jsHit (storeGet s key)
      | none => none
    match l2HitVal with
    | some v =>
      match l1? with
      | some l1 =>
        match storeSet l1 key v ttl with
        | .ok l1' =>
          { result := .ok v, computeCalls := 0, l1After := some l1', l2After := l2?,
            sync := ev2, async := [.promoteL1 true] }
        | .error _ =>
          { result := .ok v, computeCalls := 0, l1After := l1?, l2After := l2?,
            sync := ev2, async := [.promoteL1 false] }
      | none =>
        { result := .ok v, computeCalls := 0, l1After := none, l2After := l2?,
          sync := ev2, async := [] }
    | none =>
      match method with
      | .error e =>
        { result := .error e, computeCalls := 1, l1After := l1?, l2After := l2?,
          sync := ev2 ++ [.computeRun], async := [] }
      | .ok data =>
        if _shouldCache data = false then
          { result := .ok data, computeCalls := 1, l1After := l1?, l2After := l2?,
            sync := ev2 ++ [.computeRun], async := [] }
        else
          match l1? with
          | some l1 =>
            match storeSet l1 key data ttl with
            | .ok l1' =>
              match l2? with
              | some l2 =>
                match storeSet l2 key data ttl with
                | .ok l2' =>
                  { result := .ok data, computeCalls := 1, l1After := some l1',
                    l2After := some l2', sync := ev2 ++ [.computeRun, .l1Set true],
                    async := [.l2Set true] }
                | .error _ =>
                  { result := .ok data, computeCalls := 1, l1After := some l1',
                    l2After := l2?, sync := ev2 ++ [.computeRun, .l1Set true],
                    async := [.l2Set false] }
              | none =>
                { result := .ok data, computeCalls := 1, l1After := some l1',
                  l2After := none, sync := ev2 ++ [.computeRun, .l1Set true],
                  async := [] }
            | .error _ =>
              { result := .ok data, computeCalls := 1, l1After := l1?, l2After := l2?,
                sync := ev2 ++ [.computeRun, .l1Set false], async := [] }
          | none =>
            match l2? with
            | some l2 =>
              match storeSet l2 key data ttl with
              | .ok l2' =>
                { result := .ok data, computeCalls := 1, l1After := none,
                  l2After := some l2', sync := ev2 ++ [.computeRun],
                  async := [.l2Set true] }
              | .error _ =>
                { result := .ok data, computeCalls := 1, l1After := none,
                  l2After := l2?, sync := ev2 ++ [.computeRun],
                  async := [.l2Set false] }
            | none =>
              { result := .ok data, computeCalls := 1, l1After := none, l2After := none,
                sync := ev2 ++ [.computeRun], async := [] }

/-- Result of a full `_cacheWrap` call: the resolved/rejected value, how many
times the compute function ran, the cache object after all effects settle,
and the synchronous/asynchronous effect lists. -/
structure WrapOut where
  result : Except String JsValue
  computeCalls : Nat
  cacheAfter : Option CacheObj
  sync : List CacheEv
  async : List CacheEv

/-- The cache wrapper `_cacheWrap(cache, key, method, ttl)` of the
multi-store cache module: with no cache object it just runs the compute
function; otherwise it reads `stores[0]`/`stores[1]` from `cache.stores`
and runs the tiered read/compute/write-back flow of `_cacheWrapCore`. -/
def _cacheWrap (cache : Option CacheObj) (key : String)
    (method : Except String JsValue) (ttl : Nat) : WrapOut :=
  match cache with
  | none =>
    { result := method, computeCalls := 1, cacheAfter := none,
      sync := [.computeRun], async := [] }
  | some c =>
    let stores := cacheStores c
    let core := _cacheWrapCore (stores.get? 0) (stores.get? 1) key method ttl
    let stores1 := match core.l1After with
      | some s => stores.set 0 s
      | none => stores
    let stores2 := match core.l2After with
      | some s => stores1.set 1 s
      | none => stores1
    { result := core.result, computeCalls := core.computeCalls,
      cacheAfter := some (withStores c stores2),
      sync := core.sync, async := core.async }

/-- The binary-image cache instance: `null` when caching is disabled,
otherwise a plain `Keyv` wrapping an in-memory store (single level). -/
def mkImageCache (noCache : Bool) (store : Store) : Option CacheObj :=
  if noCache then none else some (.keyv store)

/-- The `cacheWrapBinaryImage(imagePath, method)` façade: delegates to
`_cacheWrap` with the binary-image Keyv instance, the
`binary-images:<imagePath>` key and the configured image TTL. -/
def cacheWrapBinaryImage (imageCache : Option CacheObj) (imagePath : String)
    (method : Except String JsValue) (binaryImagesTtl : Nat) : WrapOut :=
  _cacheWrap imageCache ("binary-images" ++ ":" ++ imagePath) method binaryImagesTtl

theorem jsHit_ok_some {v : JsValue} {t : Nat} (h : v ≠ .vundef) :
    jsHit (.ok (some (v, t))) = some v := by
  cases v
  case vundef => exact absurd rfl h
  all_goals rfl

theorem cacheWrapCore_result_cases (l1? l2? : Option Store) (key : String)
    (method : Except String JsValue) (ttl : Nat) :
    ((_cacheWrapCore l1? l2? key method ttl).computeCalls = 1 ∧
      (_cacheWrapCore l1? l2? key method ttl).result = method) ∨
    ((_cacheWrapCore l1? l2? key method ttl).computeCalls = 0 ∧
      ∃ v, (_cacheWrapCore l1? l2? key method ttl).result = .ok v) := by
  unfold _cacheWrapCore
  dsimp only
  repeat' split
  all_goals simp_all

/-- C4: for every cache object (including none), key, compute function and
TTL — in particular for every combination of store read/write failure flags —
the wrapper either runs the compute function exactly once and resolves or
rejects exactly as the compute function does, or serves a cache hit without
running it and resolves successfully; hence a store error never causes the
wrapper to reject, and the wrapper rejects if and only if the compute
function it invoked rejects. -/
theorem claim4_cache_store_failure_absorption (cache : Option CacheObj) (key : String)
    (method : Except String JsValue) (ttl : Nat) :
    ((_cacheWrap cache key method ttl).computeCalls = 1 ∧
      (_cacheWrap cache key method ttl).result = method) ∨
    ((_cacheWrap cache key method ttl).computeCalls = 0 ∧
      ∃ v, (_cacheWrap cache key method ttl).result = .ok v) := by
  cases cache with
  | none => exact Or.inl ⟨rfl, rfl⟩
  | some c =>
    have h := cacheWrapCore_result_cases ((cacheStores c).get? 0)
      ((cacheStores c).get? 1) key method ttl
    simpa [_cacheWrap] using h

/-- C2: if the local (L1) store misses on key `key` while the remote (L2)
store holds `v` there, `_cacheWrap` resolves with the remote value without
running the compute function; the write-back of `v` into L1 is asynchronous
(it is not among the effects completing before the return); and a second
call on the resulting cache hits L1 and performs no remote query at all. -/
theorem claim2_tiered_cache_promotion (l1 l2 : Store) (key : String)
    (m1 m2 : Except String JsValue) (ttl t : Nat) (v : JsValue)
    (h1 : l1.failGet = false) (h2 : assocLookup l1.contents key = none)
    (h3 : l1.failSet = false) (h4 : l2.failGet = false)
    (h5 : assocLookup l2.contents key = some (v, t)) (h6 : v ≠ .vundef) :
    (_cacheWrap (some (.multi [l1, l2])) key m1 ttl).result = .ok v ∧
    (_cacheWrap (some (.multi [l1, l2])) key m1 ttl).computeCalls = 0 ∧
    (_cacheWrap (some (.multi [l1, l2])) key m1 ttl).sync = [.l1Get, .l2Get] ∧
    (_cacheWrap (some (.multi [l1, l2])) key m1 ttl).async = [.promoteL1 true] ∧
    (_cacheWrap (some (.multi [l1, l2])) key m1 ttl).cacheAfter =
      some (.multi [{ l1 with contents := assocSet l1.contents key (v, ttl) }, l2]) ∧
    (∀ c', (_cacheWrap (some (.multi [l1, l2])) key m1 ttl).cacheAfter = some c' →
      (_cacheWrap (some c') key m2 ttl).result = .ok v ∧
      (_cacheWrap (some c') key m2 ttl).computeCalls = 0 ∧
      (_cacheWrap (some c') key m2 ttl).sync = [.l1Get] ∧
      (_cacheWrap (some c') key m2 ttl).async = []) := by
  have hfirst : _cacheWrap (some (.multi [l1, l2])) key m1 ttl =
      { result := .ok v, computeCalls := 0,
        cacheAfter := some (.multi [{ l1 with contents := assocSet l1.contents key (v, ttl) }, l2]),
        sync := [.l1Get, .l2Get], async := [.promoteL1 true] } := by
    simp [_cacheWrap, cacheStores, _cacheWrapCore, storeGet, h1, h2, h4, h5, jsHit,
      jsHit_ok_some h6, storeSet, h3, withStores]
  refine ⟨by rw [hfirst], by rw [hfirst], by rw [hfirst], by rw [hfirst], by rw [hfirst], ?_⟩
  intro c' hc'
  rw [hfirst] at hc'
  obtain rfl : c' = .multi [{ l1 with contents := assocSet l1.contents key (v, ttl) }, l2] := by
    simpa using hc'.symm
  have hsecond : _cacheWrap
      (some (.multi [{ l1 with contents := assocSet l1.contents key (v, ttl) }, l2])) key m2 ttl =
      { result := .ok v, computeCalls := 0,
        cacheAfter := some (.multi [{ l1 with contents := assocSet l1.contents key (v, ttl) }, l2]),
        sync := [.l1Get], async := [] } := by
    simp [_cacheWrap, cacheStores, _cacheWrapCore, storeGet, h1, jsHit,
      assocLookup_set_self, jsHit_ok_some h6, withStores]
  exact ⟨by rw [hsecond], by rw [hsecond], by rw [hsecond], by rw [hsecond]⟩

/-- C3: the cacheability predicate rejects `null`/`undefined`, the empty
object and the `meta: null` "not found" shape; for any such compute result
the wrapper returns it to the caller but writes nothing into either tier
(the cache object is unchanged), and a following call for the same key is
again a miss that runs the compute function and returns that fresh result,
never a previously rejected value from cache. -/
theorem claim3_negative_cache_exclusion (l1 l2 : Store) (key : String)
    (v : JsValue) (m2 : Except String JsValue) (ttl : Nat)
    (h1 : l1.failGet = false) (h2 : assocLookup l1.contents key = none)
    (h3 : l2.failGet = false) (h4 : assocLookup l2.contents key = none)
    (h5 : _shouldCache v = false) :
    _shouldCache .vnull = false ∧ _shouldCache .vundef = false ∧
    _shouldCache (.vobj []) = false ∧
    (∀ fs, assocLookup fs "meta" = some .vnull → _shouldCache (.vobj fs) = false) ∧
    (_cacheWrap (some (.multi [l1, l2])) key (.ok v) ttl).result = .ok v ∧
    (_cacheWrap (some (.multi [l1, l2])) key (.ok v) ttl).computeCalls = 1 ∧
    (_cacheWrap (some (.multi [l1, l2])) key (.ok v) ttl).cacheAfter =
      some (.multi [l1, l2]) ∧
    (_cacheWrap (some (.multi [l1, l2])) key m2 ttl).computeCalls = 1 ∧
    (_cacheWrap (some (.multi [l1, l2])) key m2 ttl).result = m2 := by
  have hrun : ∀ m : Except String JsValue,
      _cacheWrap (some (.multi [l1, l2])) key m ttl =
        { result := m, computeCalls := 1, cacheAfter := some (.multi [l1, l2]),
          sync := [.l1Get, .l2Get, .computeRun], async := [] } ∨
      (∃ d, m = .ok d ∧ _shouldCache d = true) := by
    intro m
    match m with
    | .error e =>
      left
      simp [_cacheWrap, cacheStores, _cacheWrapCore, storeGet, h1, h2, h3, h4,
        jsHit, withStores]
    | .ok d =>
      by_cases hd : _shouldCache d = true
      · exact Or.inr ⟨d, rfl, hd⟩
      · left
        have hd' : _shouldCache d = false := by simpa using hd
        simp [_cacheWrap, cacheStores, _cacheWrapCore, storeGet, h1, h2, h3, h4,
          jsHit, hd', withStores]
  have hv := hrun (.ok v)
  rcases hv with hv | ⟨d, hd1, hd2⟩
  · refine ⟨rfl, rfl, rfl, ?_, by rw [hv], by rw [hv], by rw [hv], ?_, ?_⟩
    · intro fs hfs
      simp [_shouldCache, hfs]
    · rcases hrun m2 with hm | ⟨d, rfl, hd⟩
      · rw [hm]
      · simp [_cacheWrap, cacheStores, _cacheWrapCore, storeGet, h1, h2, h3, h4,
          jsHit, hd, withStores]
        repeat' split
        all_goals rfl
    · rcases hrun m2 with hm | ⟨d, rfl, hd⟩
      · rw [hm]
      · simp [_cacheWrap, cacheStores, _cacheWrapCore, storeGet, h1, h2, h3, h4,
          jsHit, hd, withStores]
        repeat' split
        all_goals rfl
  · cases hd1
    rw [hd2] at h5
    cases h5

/-- C5: on a true miss with a cacheable computed value, the L1 write is
among the effects that complete before the wrapper returns, the L2 write is
fire-and-forget (listed after the return, succeeding exactly when the
remote store is healthy), and the resolved value is the computed value
regardless of whether the remote write fails. -/
theorem claim5_write_back_ordering (l1 l2 : Store) (key : String) (v : JsValue) (ttl : Nat)
    (h1 : l1.failGet = false) (h2 : assocLookup l1.contents key = none)
    (h3 : l2.failGet = false) (h4 : assocLookup l2.contents key = none)
    (h5 : _shouldCache v = true) (h6 : l1.failSet = false) :
    (_cacheWrap (some (.multi [l1, l2])) key (.ok v) ttl).sync
      = [.l1Get, .l2Get, .computeRun, .l1Set true] ∧
    (_cacheWrap (some (.multi [l1, l2])) key (.ok v) ttl).async = [.l2Set (!l2.failSet)] ∧
    (_cacheWrap (some (.multi [l1, l2])) key (.ok v) ttl).result = .ok v := by
  cases hf : l2.failSet <;>
    simp [_cacheWrap, cacheStores, _cacheWrapCore, storeGet, h1, h2, h3, h4, jsHit,
      h5, storeSet, h6, hf, withStores]

/-- C10: `cacheWrapBinaryImage` hands `_cacheWrap` the plain Keyv image
cache, whose missing `stores` property makes `cache.stores || []` empty, so
for every image path and compute function the call runs the compute function
exactly once, resolves or rejects exactly as it does, leaves the image store
untouched, and performs no store read or write at all (its only effect is
the compute run), so the configured binary-image TTL has no effect here. -/
theorem claim10_binary_image_facade_pass_through (store : Store) (imagePath : String)
    (method : Except String JsValue) (binaryImagesTtl : Nat) :
    (cacheWrapBinaryImage (mkImageCache false store) imagePath method binaryImagesTtl).result
      = method ∧
    (cacheWrapBinaryImage (mkImageCache false store) imagePath method binaryImagesTtl).computeCalls
      = 1 ∧
    (cacheWrapBinaryImage (mkImageCache false store) imagePath method binaryImagesTtl).cacheAfter
      = some (.keyv store) ∧
    (cacheWrapBinaryImage (mkImageCache false store) imagePath method binaryImagesTtl).sync
      = [.computeRun] ∧
    (cacheWrapBinaryImage (mkImageCache false store) imagePath method binaryImagesTtl).async
      = [] := by
  match method with
  | .error e =>
    simp [cacheWrapBinaryImage, mkImageCache, _cacheWrap, cacheStores, _cacheWrapCore,
      withStores]
  | .ok d =>
    cases hd : _shouldCache d <;>
      simp [cacheWrapBinaryImage, mkImageCache, _cacheWrap, cacheStores, _cacheWrapCore,
        hd, withStores]

theorem claim2_tiered_cache_promotion_witness :
    (Store.mk [] false false).failGet = false ∧
    assocLookup (Store.mk [] false false).contents "k" = none ∧
    (Store.mk [] false false).failSet = false ∧
    (Store.mk [("k", (JsValue.vstr "v", 7))] false false).failGet = false ∧
    assocLookup (Store.mk [("k", (JsValue.vstr "v", 7))] false false).contents "k"
      = some (.vstr "v", 7) ∧
    JsValue.vstr "v" ≠ JsValue.vundef ∧
    ((_cacheWrap (some (.multi [Store.mk [] false false,
        Store.mk [("k", (JsValue.vstr "v", 7))] false false])) "k"
        (.ok (.vstr "x")) 5).result = .ok (.vstr "v") ∧
     (_cacheWrap (some (.multi [Store.mk [] false false,
        Store.mk [("k", (JsValue.vstr "v", 7))] false false])) "k"
        (.ok (.vstr "x")) 5).computeCalls = 0 ∧
     (_cacheWrap (some (.multi [Store.mk [] false false,
        Store.mk [("k", (JsValue.vstr "v", 7))] false false])) "k"
        (.ok (.vstr "x")) 5).sync = [.l1Get, .l2Get] ∧
     (_cacheWrap (some (.multi [Store.mk [] false false,
        Store.mk [("k", (JsValue.vstr "v", 7))] false false])) "k"
        (.ok (.vstr "x")) 5).async = [.promoteL1 true] ∧
     (_cacheWrap (some (.multi [Store.mk [] false false,
        Store.mk [("k", (JsValue.vstr "v", 7))] false false])) "k"
        (.ok (.vstr "x")) 5).cacheAfter =
       some (.multi [{ Store.mk [] false false with
          contents := assocSet (Store.mk [] false false).contents "k" (.vstr "v", 5) },
          Store.mk [("k", (JsValue.vstr "v", 7))] false false]) ∧
     (∀ c', (_cacheWrap (some (.multi [Store.mk [] false false,
          Store.mk [("k", (JsValue.vstr "v", 7))] false false])) "k"
          (.ok (.vstr "x")) 5).cacheAfter = some c' →
        (_cacheWrap (some c') "k" (.error "boom") 5).result = .ok (.vstr "v") ∧
        (_cacheWrap (some c') "k" (.error "boom") 5).computeCalls = 0 ∧
        (_cacheWrap (some c') "k" (.error "boom") 5).sync = [.l1Get] ∧
        (_cacheWrap (some c') "k" (.error "boom") 5).async = [])) :=
  ⟨rfl, rfl, rfl, rfl, rfl, fun h => JsValue.noConfusion h,
    claim2_tiered_cache_promotion (Store.mk [] false false)
      (Store.mk [("k", (JsValue.vstr "v", 7))] false false) "k"
      (.ok (.vstr "x")) (.error "boom") 5 7 (.vstr "v")
      rfl rfl rfl rfl rfl (fun h => JsValue.noConfusion h)⟩

theorem claim3_negative_cache_exclusion_witness :
    (Store.mk [] false false).failGet = false ∧
    assocLookup (Store.mk [] false false).contents "k" = none ∧
    _shouldCache (.vobj [("meta", JsValue.vnull)]) = false ∧
    ((_cacheWrap (some (.multi [Store.mk [] false false, Store.mk [] false false])) "k"
        (.ok (.vobj [("meta", JsValue.vnull)])) 5).result
        = .ok (.vobj [("meta", JsValue.vnull)]) ∧
     (_cacheWrap (some (.multi [Store.mk [] false false, Store.mk [] false false])) "k"
        (.ok (.vobj [("meta", JsValue.vnull)])) 5).computeCalls = 1 ∧
     (_cacheWrap (some (.multi [Store.mk [] false false, Store.mk [] false false])) "k"
        (.ok (.vobj [("meta", JsValue.vnull)])) 5).cacheAfter =
        some (.multi [Store.mk [] false false, Store.mk [] false false]) ∧
     (_cacheWrap (some (.multi [Store.mk [] false false, Store.mk [] false false])) "k"
        (.ok (.vstr "fresh")) 5).computeCalls = 1 ∧
     (_cacheWrap (some (.multi [Store.mk [] false false, Store.mk [] false false])) "k"
        (.ok (.vstr "fresh")) 5).result = .ok (.vstr "fresh")) := by
  have h := claim3_negative_cache_exclusion (Store.mk [] false false)
    (Store.mk [] false false) "k" (.vobj [("meta", JsValue.vnull)])
    (.ok (.vstr "fresh")) 5 rfl rfl rfl rfl rfl
  exact ⟨rfl, rfl, rfl, h.2.2.2.2.1, h.2.2.2.2.2.1, h.2.2.2.2.2.2.1,
    h.2.2.2.2.2.2.2.1, h.2.2.2.2.2.2.2.2⟩

theorem claim5_write_back_ordering_witness :
    (Store.mk [] false false).failGet = false ∧
    assocLookup (Store.mk [] false false).contents "k" = none ∧
    (Store.mk [] false true).failGet = false ∧
    assocLookup (Store.mk [] false true).contents "k" = none ∧
    _shouldCache (.vstr "data") = true ∧
    (Store.mk [] false false).failSet = false ∧
    ((_cacheWrap (some (.multi [Store.mk [] false false, Store.mk [] false true])) "k"
        (.ok (.vstr "data")) 5).sync = [.l1Get, .l2Get, .computeRun, .l1Set true] ∧
     (_cacheWrap (some (.multi [Store.mk [] false false, Store.mk [] false true])) "k"
        (.ok (.vstr "data")) 5).async = [.l2Set (!(Store.mk [] false true).failSet)] ∧
     (_cacheWrap (some (.multi [Store.mk [] false false, Store.mk [] false true])) "k"
        (.ok (.vstr "data")) 5).result = .ok (.vstr "data")) :=
  ⟨rfl, rfl, rfl, rfl, rfl, rfl,
    claim5_write_back_ordering (Store.mk [] false false) (Store.mk [] false true) "k"
      (.vstr "data") 5 rfl rfl rfl rfl rfl rfl⟩

/-!
UserApiManager: single-flight login (`getUserApi` of the user API instance
manager, in both its session-cache and in-memory variants).

In the source, the `initPromises.has(credentialsHash)` check, the creation
of the initialization promise — whose async body synchronously issues the
upstream login before suspending at its first await — and
`initPromises.set(credentialsHash, initPromise)` occur with no intervening
`await`. Under the single-threaded event loop this whole section is one
atomic block, so a caller's traversal of `getUserApi` up to the point where
it awaits is modelled as one atomic step; concurrent callers are any
interleaving of such steps, i.e. any sequence of them.
-/

/-- What a single `getUserApi` caller observes before awaiting: it got a
session rebuilt from the session cache, it joined the in-flight
initialization promise `pid` registered by an earlier caller, or it started
a fresh initialization registered as promise `pid` (issuing the one upstream
login call). Callers holding the same `pid` await the same promise object
and therefore receive the same resolved session or the same rejection. -/
inductive MgrOutcome where
  | cachedSession (sid : Nat)
  | joined (pid : Nat)
  | started (pid : Nat)
deriving DecidableEq

/-- Manager state: the session cache (`user-session:`-keyed entries,
abstracted to a session id), the `initPromises` ledger mapping a
credentials hash to the id of its in-flight login promise, the number of
upstream login calls issued so far, and a fresh-promise-id counter. -/
structure MgrState where
  sessionCache : List (String × Nat)
  initPromises : List (String × Nat)
  loginCalls : Nat
  nextPid : Nat
deriving DecidableEq

/-- One `getUserApi(email, password)` traversal for a caller whose
credentials hash to `hash`, up to the await: serve the cached session if
one exists; else join an in-flight initialization if the ledger has one;
else start a new initialization — the login network call is issued and the
promise is registered in the ledger within the same atomic block. -/
def getUserApiStep (st : MgrState) (hash : String) : MgrState × MgrOutcome :=
  match assocLookup st.sessionCache hash with
  | some sid => (st, .cachedSession sid)
  | none =>
    match assocLookup st.initPromises hash with
    | some pid => (st, .joined pid)
    | none =>
      ({ st with initPromises := assocSet st.initPromises hash st.nextPid,
                 loginCalls := st.loginCalls + 1,
                 nextPid := st.nextPid + 1 }, .started st.nextPid)

/-- Settlement of the initialization promise for `hash`: the `finally`
block deletes the ledger entry whether the login resolved or rejected; on
success, `_initializeUserApi` has stored the session (id `sid`) in the
session cache beforehand when caching applies (`cacheWrite`, i.e. the cache
is enabled and the computed TTL was positive); on failure nothing is
cached. -/
def settleInit (st : MgrState) (hash : String) (success cacheWrite : Bool)
    (sid : Nat) : MgrState :=
  { st with
      sessionCache :=
        if success && cacheWrite then assocSet st.sessionCache hash sid
        else st.sessionCache,
      initPromises := assocDelete st.initPromises hash }

/-- `n` concurrent `getUserApi` callers for the same credentials hash:
the sequence of their atomic steps (any interleaving of single-threaded
callers is such a sequence). -/
def getUserApiN : MgrState → String → Nat → MgrState × List MgrOutcome
  | st, _, 0 => (st, [])
  | st, hash, n + 1 =>
    let p := getUserApiStep st hash
    let q := getUserApiN p.1 hash n
    (q.1, p.2 :: q.2)

theorem getUserApiStep_joined (st : MgrState) (hash : String) (pid : Nat)
    (hc : assocLookup st.sessionCache hash = none)
    (hp : assocLookup st.initPromises hash = some pid) :
    getUserApiStep st hash = (st, .joined pid) := by
  simp [getUserApiStep, hc, hp]

theorem getUserApiN_joined (st : MgrState) (hash : String) (pid : Nat) (n : Nat)
    (hc : assocLookup st.sessionCache hash = none)
    (hp : assocLookup st.initPromises hash = some pid) :
    getUserApiN st hash n = (st, List.replicate n (.joined pid)) := by
  induction n with
  | zero => simp [getUserApiN]
  | succ n ih =>
    simp [getUserApiN, getUserApiStep_joined st hash pid hc hp, ih,
      List.replicate_succ]

/-- C1: for a fixed credentials hash with no cached session and no in-flight
initialization, any interleaving of `n ≥ 1` concurrent `getUserApi` callers
issues exactly one upstream login call; the first caller starts the one
initialization promise and every other caller joins that same promise (so
all receive the same resulting session or the same rejection); the ledger
then holds that promise under the hash; settling the promise — resolved or
rejected — removes the ledger entry; after a failed settlement the next
caller starts a fresh login attempt; and both stepping and settling
preserve the invariant that the ledger holds at most one entry per hash. -/
theorem claim1_single_flight_login (st : MgrState) (hash : String) (n : Nat)
    (hc : assocLookup st.sessionCache hash = none)
    (hp : assocLookup st.initPromises hash = none)
    (hn : 1 ≤ n) :
    (getUserApiN st hash n).1.loginCalls = st.loginCalls + 1 ∧
    (getUserApiN st hash n).2 =
      .started st.nextPid :: List.replicate (n - 1) (.joined st.nextPid) ∧
    assocLookup (getUserApiN st hash n).1.initPromises hash = some st.nextPid ∧
    (∀ success cacheWrite : Bool, ∀ sid : Nat,
      assocLookup
        (settleInit (getUserApiN st hash n).1 hash success cacheWrite sid).initPromises
        hash = none) ∧
    (getUserApiStep (settleInit (getUserApiN st hash n).1 hash false false 0) hash).2 =
      .started (getUserApiN st hash n).1.nextPid ∧
    (getUserApiStep (settleInit (getUserApiN st hash n).1 hash false false 0) hash).1.loginCalls
      = st.loginCalls + 2 ∧
    (∀ s : MgrState, ∀ h : String, (s.initPromises.map Prod.fst).Nodup →
      (((getUserApiStep s h).1.initPromises.map Prod.fst).Nodup ∧
       ∀ success cacheWrite : Bool, ∀ sid : Nat,
         ((settleInit s h success cacheWrite sid).initPromises.map Prod.fst).Nodup)) := by
  obtain ⟨m, rfl⟩ : ∃ m, n = m + 1 := ⟨n - 1, (Nat.succ_pred_eq_of_pos hn).symm⟩
  have hstep : getUserApiStep st hash =
      ({ st with initPromises := assocSet st.initPromises hash st.nextPid,
                 loginCalls := st.loginCalls + 1,
                 nextPid := st.nextPid + 1 }, .started st.nextPid) := by
    simp [getUserApiStep, hc, hp]
  have hrest := getUserApiN_joined
    { st with initPromises := assocSet st.initPromises hash st.nextPid,
              loginCalls := st.loginCalls + 1, nextPid := st.nextPid + 1 }
    hash st.nextPid m hc (assocLookup_set_self _ _ _)
  have hN : getUserApiN st hash (m + 1) =
      ({ st with initPromises := assocSet st.initPromises hash st.nextPid,
                 loginCalls := st.loginCalls + 1, nextPid := st.nextPid + 1 },
       .started st.nextPid :: List.replicate m (.joined st.nextPid)) := by
    simp [getUserApiN, hstep, hrest]
  refine ⟨by rw [hN], by rw [hN]; simp, by rw [hN]; exact assocLookup_set_self _ _ _,
    ?_, ?_, ?_, ?_⟩
  · intro success cacheWrite sid
    rw [hN]
    exact assocLookup_delete_self _ _
  · rw [hN]
    simp [settleInit, getUserApiStep, hc, assocLookup_delete_self]
  · rw [hN]
    simp [settleInit, getUserApiStep, hc, assocLookup_delete_self]
  · intro s h hnd
    constructor
    · unfold getUserApiStep
      repeat' split
      all_goals simp_all [nodup_keys_assocSet]
    · intro success cacheWrite sid
      exact nodup_keys_assocDelete _ _ hnd

theorem claim1_single_flight_login_witness :
    assocLookup (MgrState.mk [] [] 0 0).sessionCache "h" = none ∧
    assocLookup (MgrState.mk [] [] 0 0).initPromises "h" = none ∧
    1 ≤ 3 ∧
    ((getUserApiN (MgrState.mk [] [] 0 0) "h" 3).1.loginCalls
        = (MgrState.mk [] [] 0 0).loginCalls + 1 ∧
     (getUserApiN (MgrState.mk [] [] 0 0) "h" 3).2 =
        .started 0 :: List.replicate 2 (.joined 0) ∧
     assocLookup (getUserApiN (MgrState.mk [] [] 0 0) "h" 3).1.initPromises "h" = some 0 ∧
     (∀ success cacheWrite : Bool, ∀ sid : Nat,
        assocLookup
          (settleInit (getUserApiN (MgrState.mk [] [] 0 0) "h" 3).1 "h"
            success cacheWrite sid).initPromises "h" = none) ∧
     (getUserApiStep
        (settleInit (getUserApiN (MgrState.mk [] [] 0 0) "h" 3).1 "h" false false 0) "h").2
        = .started (getUserApiN (MgrState.mk [] [] 0 0) "h" 3).1.nextPid ∧
     (getUserApiStep
        (settleInit (getUserApiN (MgrState.mk [] [] 0 0) "h" 3).1 "h"
          false false 0) "h").1.loginCalls = (MgrState.mk [] [] 0 0).loginCalls + 2 ∧
     (∀ s : MgrState, ∀ h : String, (s.initPromises.map Prod.fst).Nodup →
        (((getUserApiStep s h).1.initPromises.map Prod.fst).Nodup ∧
         ∀ success cacheWrite : Bool, ∀ sid : Nat,
           ((settleInit s h success cacheWrite sid).initPromises.map Prod.fst).Nodup))) := by
  have h := claim1_single_flight_login (MgrState.mk [] [] 0 0) "h" 3 rfl rfl (by decide)
  exact ⟨rfl, rfl, by decide, h⟩

/-!
Image proxy pipeline: `fetchImage` of the image proxy middleware, with the
image cache service, the deduplication ledger and the queue service.

`fetchImage` contains no `await`: its cache check, ledger check and — when
it starts a fetch — the launch of `fetchImageWithCache` (which issues the
upstream request before its first await) and the ledger registration all
run in one synchronous block. With queuing enabled and the worker idle,
`queue()` pushes the item and `processQueue()` runs synchronously through
the re-checks, the fetch launch and the ledger registration before
suspending on the awaited fetch. Each caller is therefore one atomic step.
-/

/-- What a single `fetchImage(imageUrl, imagePath)` caller observes:
a cache hit (the cached fetch result, identified by the id of the fetch
that produced it), joining the in-flight fetch promise `pid` from the
dedup ledger, starting a fresh upstream fetch registered as `pid`, or
being parked in the queue behind a busy worker. -/
inductive ImgOutcome where
  | cachedHit (v : Nat)
  | joined (pid : Nat)
  | started (pid : Nat)
  | queuedWait
deriving DecidableEq

/-- Image pipeline state: the 30s image cache (url → id of the fetch whose
result is cached), the dedup ledger (url → in-flight fetch promise id), the
queued urls, the worker's `isProcessing` flag, the queue-enabled
configuration flag, the number of upstream image requests issued, and a
fresh-promise-id counter. -/
structure ImgState where
  imageCache : List (String × Nat)
  inFlight : List (String × Nat)
  queueItems : List String
  isProcessing : Bool
  queueEnabled : Bool
  upstreamCalls : Nat
  nextPid : Nat
deriving DecidableEq

/-- One `fetchImage` traversal: 1) serve from cache; 2) join an in-flight
fetch from the dedup ledger; 3) with queuing enabled, enqueue — if the
worker is idle it starts synchronously, dequeues this very item (the source
maintains that an idle worker has an empty queue), re-checks cache and
ledger (unchanged in the same block), launches the upstream fetch and
registers it in the ledger before suspending; behind a busy worker the item
waits; 4) with queuing disabled, launch the fetch and register it
immediately. -/
def fetchImageStep (st : ImgState) (url : String) : ImgState × ImgOutcome :=
  match assocLookup st.imageCache url with
  | some v => (st, .cachedHit v)
  | none =>
    match assocLookup st.inFlight url with
    | some pid => (st, .joined pid)
    | none =>
      if st.queueEnabled then
        match st.queueItems, st.isProcessing with
        | [], false =>
          ({ st with inFlight := assocSet st.inFlight url st.nextPid,
                     isProcessing := true,
                     upstreamCalls := st.upstreamCalls + 1,
                     nextPid := st.nextPid + 1 }, .started st.nextPid)
        | _, _ =>
          ({ st with queueItems := st.queueItems ++ [url] }, .queuedWait)
      else
        ({ st with inFlight := assocSet st.inFlight url st.nextPid,
                   upstreamCalls := st.upstreamCalls + 1,
                   nextPid := st.nextPid + 1 }, .started st.nextPid)

/-- Settlement of the in-flight fetch for `url`: on success
`fetchImageWithCache` writes the result into the image cache before the
promise resolves; the attached completion handler then removes the ledger
entry whether the fetch succeeded or failed; a worker awaiting this fetch
with an empty queue finishes processing (a nonempty queue would be drained
further, one item per settlement, which the settled claims do not need). -/
def imgSettle (st : ImgState) (url : String) (pid : Nat) (success : Bool) : ImgState :=
  { st with
      imageCache :=
        if success then assocSet st.imageCache url pid else st.imageCache,
      inFlight := assocDelete st.inFlight url,
      isProcessing := st.isProcessing && !st.queueItems.isEmpty }

/-- C6: two concurrent `fetchImage` calls for the same URL, issued while no
cache entry and no in-flight fetch exist for it and the queue worker is
idle — with queuing either enabled or disabled — issue exactly one upstream
image request: the first caller starts and registers the fetch, the second
joins that same promise via the dedup ledger; and settling the fetch,
successfully or not, removes the ledger entry for the URL. -/
theorem claim6_image_request_deduplication (st : ImgState) (url : String)
    (hc : assocLookup st.imageCache url = none)
    (hf : assocLookup st.inFlight url = none)
    (hq : st.queueItems = []) (hw : st.isProcessing = false) :
    (fetchImageStep st url).2 = .started st.nextPid ∧
    (fetchImageStep (fetchImageStep st url).1 url).2 = .joined st.nextPid ∧
    (fetchImageStep (fetchImageStep st url).1 url).1.upstreamCalls
      = st.upstreamCalls + 1 ∧
    assocLookup (fetchImageStep (fetchImageStep st url).1 url).1.inFlight url
      = some st.nextPid ∧
    (∀ success : Bool,
      assocLookup
        (imgSettle (fetchImageStep (fetchImageStep st url).1 url).1 url
          st.nextPid success).inFlight url = none) := by
  cases hqe : st.queueEnabled with
  | false =>
    have h1 : fetchImageStep st url =
        ({ st with inFlight := assocSet st.inFlight url st.nextPid,
                   upstreamCalls := st.upstreamCalls + 1,
                   nextPid := st.nextPid + 1 }, .started st.nextPid) := by
      simp [fetchImageStep, hc, hf, hqe]
    have h2 : fetchImageStep (fetchImageStep st url).1 url =
        ((fetchImageStep st url).1, .joined st.nextPid) := by
      rw [h1]
      simp [fetchImageStep, hc, assocLookup_set_self]
    refine ⟨by rw [h1], by rw [h2, h1], by rw [h2, h1], ?_, ?_⟩
    · rw [h2, h1]
      exact assocLookup_set_self _ _ _
    · intro success
      rw [h2, h1]
      simp [imgSettle, assocLookup_delete_self]
  | true =>
    have h1 : fetchImageStep st url =
        ({ st with inFlight := assocSet st.inFlight url st.nextPid,
                   isProcessing := true,
                   upstreamCalls := st.upstreamCalls + 1,
                   nextPid := st.nextPid + 1 }, .started st.nextPid) := by
      simp [fetchImageStep, hc, hf, hqe, hq, hw]
    have h2 : fetchImageStep (fetchImageStep st url).1 url =
        ((fetchImageStep st url).1, .joined st.nextPid) := by
      rw [h1]
      simp [fetchImageStep, hc, assocLookup_set_self]
    refine ⟨by rw [h1], by rw [h2, h1], by rw [h2, h1], ?_, ?_⟩
    · rw [h2, h1]
      exact assocLookup_set_self _ _ _
    · intro success
      rw [h2, h1]
      simp [imgSettle, assocLookup_delete_self]

theorem claim6_image_request_deduplication_witness :
    assocLookup (ImgState.mk [] [] [] false true 0 0).imageCache "u" = none ∧
    assocLookup (ImgState.mk [] [] [] false true 0 0).inFlight "u" = none ∧
    (ImgState.mk [] [] [] false true 0 0).queueItems = [] ∧
    (ImgState.mk [] [] [] false true 0 0).isProcessing = false ∧
    ((fetchImageStep (ImgState.mk [] [] [] false true 0 0) "u").2 = .started 0 ∧
     (fetchImageStep (fetchImageStep (ImgState.mk [] [] [] false true 0 0) "u").1 "u").2
        = .joined 0 ∧
     (fetchImageStep (fetchImageStep
        (ImgState.mk [] [] [] false true 0 0) "u").1 "u").1.upstreamCalls = 0 + 1 ∧
     assocLookup (fetchImageStep (fetchImageStep
        (ImgState.mk [] [] [] false true 0 0) "u").1 "u").1.inFlight "u" = some 0 ∧
     (∀ success : Bool,
        assocLookup
          (imgSettle (fetchImageStep (fetchImageStep
            (ImgState.mk [] [] [] false true 0 0) "u").1 "u").1 "u" 0 success).inFlight "u"
          = none)) :=
  ⟨rfl, rfl, rfl, rfl,
    claim6_image_request_deduplication (ImgState.mk [] [] [] false true 0 0) "u"
      rfl rfl rfl rfl⟩

/-!
Credentials-hash derivation: `_getCredentialsHash(email, password)` of the
UserApiManager computes the hex digest of SHA-256 over the UTF-8 bytes of
the string `email + ":" + password` (node `crypto.createHash('sha256')`).
SHA-256 itself (FIPS 180-4) and the UTF-8 encoder are external primitives
the repository calls; they are embedded here in full.
-/

/-- Truncation to a 32-bit word. -/
def w32 (n : Nat) : Nat := n % 4294967296

/-- Right rotation of a 32-bit word. -/
def rotr32 (x n : Nat) : Nat := w32 ((x >>> n) ||| (x <<< (32 - n)))

def smallSigma0 (x : Nat) : Nat := rotr32 x 7 ^^^ rotr32 x 18 ^^^ (x >>> 3)

def smallSigma1 (x : Nat) : Nat := rotr32 x 17 ^^^ rotr32 x 19 ^^^ (x >>> 10)

def bigSigma0 (x : Nat) : Nat := rotr32 x 2 ^^^ rotr32 x 13 ^^^ rotr32 x 22

def bigSigma1 (x : Nat) : Nat := rotr32 x 6 ^^^ rotr32 x 11 ^^^ rotr32 x 25

def chFn (e f g : Nat) : Nat := (e &&& f) ^^^ ((4294967295 ^^^ e) &&& g)

def majFn (a b c : Nat) : Nat := (a &&& b) ^^^ (a &&& c) ^^^ (b &&& c)

/-- The 64 SHA-256 round constants. -/
def sha256K : List Nat :=
  [1116352408, 1899447441, 3049323471, 3921009573, 961987163,
   1508970993, 2453635748, 2870763221, 3624381080, 310598401,
   607225278, 1426881987, 1925078388, 2162078206, 2614888103,
   3248222580, 3835390401, 4022224774, 264347078, 604807628,
   770255983, 1249150122, 1555081692, 1996064986, 2554220882,
   2821834349, 2952996808, 3210313671, 3336571891, 3584528711,
   113926993, 338241895, 666307205, 773529912, 1294757372,
   1396182291, 1695183700, 1986661051, 2177026350, 2456956037,
   2730485921, 2820302411, 3259730800, 3345764771, 3516065817,
   3600352804, 4094571909, 275423344, 430227734, 506948616,
   659060556, 883997877, 958139571, 1322822218, 1537002063,
   1747873779, 1955562222, 2024104815, 2227730452, 2361852424,
   2428436474, 2756734187, 3204031479, 3329325298]

/-- The SHA-256 initial hash state. -/
def sha256InitH : List Nat :=
  [1779033703, 3144134277, 1013904242, 2773480762,
   1359893119, 2600822924, 528734635, 1541459225]

/-- Parse a 64-byte block into 16 big-endian 32-bit words. -/
def sha256ToWords (block : List Nat) : List Nat :=
  (List.range 16).map (fun i =>
    ((block.getD (4 * i) 0) <<< 24) ||| ((block.getD (4 * i + 1) 0) <<< 16) |||
    ((block.getD (4 * i + 2) 0) <<< 8) ||| block.getD (4 * i + 3) 0)

/-- Extend the 16 message-schedule words by the given number of words. -/
def sha256Extend (ws : List Nat) : Nat → List Nat
  | 0 => ws
  | n + 1 =>
    let i := ws.length
    let w := w32 (smallSigma1 (ws.getD (i - 2) 0) + ws.getD (i - 7) 0 +
                  smallSigma0 (ws.getD (i - 15) 0) + ws.getD (i - 16) 0)
    sha256Extend (ws ++ [w]) n

/-- One SHA-256 compression round on the (a..h) working state. -/
def sha256Round (st : Nat × Nat × Nat × Nat × Nat × Nat × Nat × Nat)
    (kw : Nat × Nat) : Nat × Nat × Nat × Nat × Nat × Nat × Nat × Nat :=
  match st with
  | (a, b, c, d, e, f, g, h) =>
    let t1 := w32 (h + bigSigma1 e + chFn e f g + kw.1 + kw.2)
    let t2 := w32 (bigSigma0 a + majFn a b c)
    (w32 (t1 + t2), a, b, c, w32 (d + t1), e, f, g)

/-- Compress one 64-byte block into the hash state. -/
def sha256Compress (hs : List Nat) (block : List Nat) : List Nat :=
  let ws := sha256Extend (sha256ToWords block) 48
  let fin := (sha256K.zip ws).foldl sha256Round
    (hs.getD 0 0, hs.getD 1 0, hs.getD 2 0, hs.getD 3 0,
     hs.getD 4 0, hs.getD 5 0, hs.getD 6 0, hs.getD 7 0)
  match fin with
  | (a, b, c, d, e, f, g, h) =>
    [w32 (hs.getD 0 0 + a), w32 (hs.getD 1 0 + b), w32 (hs.getD 2 0 + c),
     w32 (hs.getD 3 0 + d), w32 (hs.getD 4 0 + e), w32 (hs.getD 5 0 + f),
     w32 (hs.getD 6 0 + g), w32 (hs.getD 7 0 + h)]

/-- Fold the given number of 64-byte blocks of the message into the state. -/
def sha256Blocks (hs : List Nat) (msg : List Nat) : Nat → List Nat
  | 0 => hs
  | n + 1 => sha256Blocks (sha256Compress hs (msg.take 64)) (msg.drop 64) n

/-- SHA-256 padding: append `0x80`, zero-pad to 56 mod 64 bytes, then the
message bit length as 8 big-endian bytes. -/
def sha256Pad (msg : List Nat) : List Nat :=
  let bitLen := msg.length * 8
  let zeros := (119 - msg.length % 64) % 64
  msg ++ [128] ++ List.replicate zeros 0 ++
    (List.range 8).map (fun i => (bitLen >>> (8 * (7 - i))) % 256)

/-- Serialize 32-bit words to big-endian bytes. -/
def wordsToBytes (ws : List Nat) : List Nat :=
  ws.foldr (fun w acc =>
    ((w >>> 24) % 256) :: ((w >>> 16) % 256) :: ((w >>> 8) % 256) :: (w % 256) :: acc) []

/-- SHA-256 digest (32 bytes) of a byte sequence. -/
def sha256Bytes (msg : List Nat) : List Nat :=
  let padded := sha256Pad msg
  wordsToBytes (sha256Blocks sha256InitH padded (padded.length / 64))

/-- Lower-case hex digit for a value below 16. -/
def hexDigit (n : Nat) : Char := if n < 10 then Char.ofNat (48 + n) else Char.ofNat (87 + n)

/-- Hex string of a byte sequence (node's `digest('hex')`). -/
def bytesToHex (bs : List Nat) : String :=
  String.mk ((bs.map (fun b => [hexDigit (b / 16), hexDigit (b % 16)])).flatten)

/-- UTF-8 encoding of one Unicode code point. -/
def utf8EncodeChar (c : Char) : List Nat :=
  let n := c.toNat
  if n < 128 then [n]
  else if n < 2048 then [192 ||| (n >>> 6), 128 ||| (n &&& 63)]
  else if n < 65536 then
    [224 ||| (n >>> 12), 128 ||| ((n >>> 6) &&& 63), 128 ||| (n &&& 63)]
  else
    [240 ||| (n >>> 18), 128 ||| ((n >>> 12) &&& 63),
     128 ||| ((n >>> 6) &&& 63), 128 ||| (n &&& 63)]

/-- UTF-8 bytes of a string (node `Buffer.from(s, 'utf8')`). -/
def utf8Bytes (s : String) : List Nat := (s.data.map utf8EncodeChar).flatten

/-- The template string the UserApiManager hashes: `email + ":" + password`. -/
def credentialsInput (email password : String) : String := email ++ ":" ++ password

/-- `_getCredentialsHash(email, password)`: hex SHA-256 of the UTF-8 bytes
of `email + ":" + password`. -/
def _getCredentialsHash (email password : String) : String :=
  bytesToHex (sha256Bytes (utf8Bytes (credentialsInput email password)))

theorem sha256Hex_abc_vector :
    bytesToHex (sha256Bytes (utf8Bytes "abc"))
      = "ba7816bf8f01cfea414140de5dae2223b00361a396177a9cb410ff61f20015ad" := by
  decide

/-- C9 counterexample: the two distinct credential pairs `("a:b", "c")` and
`("a", "b:c")` concatenate to the same string `"a:b:c"`, so
`_getCredentialsHash` maps them to the same hash — the derivation is not
collision-free across all distinct (email, password) pairs. -/
theorem claim9_credentials_key_derivation_counterexample :
    (("a:b", "c") : String × String) ≠ ("a", "b:c") ∧
    _getCredentialsHash "a:b" "c" = _getCredentialsHash "a" "b:c" := by
  refine ⟨by decide, ?_⟩
  have h : credentialsInput "a:b" "c" = credentialsInput "a" "b:c" := by decide
  unfold _getCredentialsHash
  rw [h]

theorem append_colon_inj (l1 : List Char) (r1 : List Char) (l2 r2 : List Char)
    (h1 : ':' ∉ l1) (h2 : ':' ∉ l2)
    (h : l1 ++ ':' :: r1 = l2 ++ ':' :: r2) : l1 = l2 ∧ r1 = r2 := by
  induction l1 generalizing l2 with
  | nil =>
    cases l2 with
    | nil => simpa using h
    | cons c t =>
      simp only [List.nil_append, List.cons_append, List.cons.injEq] at h
      simp only [List.mem_cons, not_or] at h2
      exact absurd h.1 h2.1
  | cons c t ih =>
    cases l2 with
    | nil =>
      simp only [List.nil_append, List.cons_append, List.cons.injEq] at h
      simp only [List.mem_cons, not_or] at h1
      exact absurd h.1.symm h1.1
    | cons c' t' =>
      simp only [List.cons_append, List.cons.injEq] at h
      obtain ⟨rfl, htail⟩ := h
      simp only [List.mem_cons, not_or] at h1 h2
      obtain ⟨heq, hr⟩ := ih t' h1.2 h2.2 htail
      exact ⟨by rw [heq], hr⟩

/-- C9 amended: the credentials hash is a deterministic function of the
(email, password) pair, and for pairs whose emails contain no `':'` the
hashed input strings `email + ":" + password` are injective — distinct such
pairs feed distinct strings to SHA-256 (so equal hashes would require a
SHA-256 collision; full collision-freedom over all pairs is false by the
counterexample, since a `':'` inside an email lets two distinct pairs
concatenate identically). -/
theorem claim9_credentials_key_derivation_amended (e1 p1 e2 p2 : String)
    (hne1 : ':' ∉ e1.data) (hne2 : ':' ∉ e2.data) :
    (e1 = e2 → p1 = p2 → _getCredentialsHash e1 p1 = _getCredentialsHash e2 p2) ∧
    (credentialsInput e1 p1 = credentialsInput e2 p2 → e1 = e2 ∧ p1 = p2) := by
  constructor
  · intro h1 h2
    rw [h1, h2]
  · intro h
    have hdata : e1.data ++ ':' :: p1.data = e2.data ++ ':' :: p2.data := by
      have := congrArg String.data h
      simpa [credentialsInput, String.data_append] using this
    obtain ⟨ha, hb⟩ := append_colon_inj e1.data p1.data e2.data p2.data hne1 hne2 hdata
    exact ⟨String.ext ha, String.ext hb⟩

theorem claim9_credentials_key_derivation_amended_witness :
    (':' ∉ ("a@x.com" : String).data) ∧
    (("a@x.com" : String) = "a@x.com" → ("p1" : String) = "p1" →
      _getCredentialsHash "a@x.com" "p1" = _getCredentialsHash "a@x.com" "p1") ∧
    (credentialsInput "a@x.com" "p1" = credentialsInput "a@x.com" "p2" →
      ("a@x.com" : String) = "a@x.com" ∧ ("p1" : String) = "p2") := by
  have h := claim9_credentials_key_derivation_amended "a@x.com" "p1" "a@x.com" "p2"
    (by decide) (by decide)
  have h' := claim9_credentials_key_derivation_amended "a@x.com" "p1" "a@x.com" "p1"
    (by decide) (by decide)
  exact ⟨by decide, h'.1, h.2⟩

/-!
HanimeUserApi session client and the session-caching step of
`_initializeUserApi` in the UserApiManager.
-/

/-- Shape of a successful upstream login: the new session token, its expiry
as a Unix timestamp in seconds, and the premium flag used for logging. -/
structure LoginResult where
  sessionToken : String
  sessionTokenExpireTimeUnix : Int
  isPremium : Bool

/-- The serializable session data `_initializeUserApi` stores in the
session cache: token, expiry converted to milliseconds, email and premium
flag — deliberately not the password. -/
structure SessionData where
  sessionToken : String
  expiresAt : Int
  email : String
  isPremium : Bool

/-- State of a `HanimeUserApi` instance: the client's session token, the
credentials retained for auto-refresh, and the token expiry (Unix seconds);
each is nullable as in the constructor. -/
structure HanimeUserApi where
  sessionToken : Option String
  email : Option String
  password : Option String
  sessionTokenExpireTimeUnix : Option Int

/-- The refresh buffer the constructor hardcodes: refresh 5 minutes (300 s)
before expiration. -/
def refreshBufferSeconds : Int := 300

/-- The session-caching tail of `_initializeUserApi(email, password)`: on a
failed login the error is rethrown; on success a `HanimeUserApi` carrying
the credentials is built, and — when the session cache is enabled — the
serializable session data is stored under `user-session:<credentials hash>`
with TTL `expiry_ms - now - 5min`, skipped entirely when that TTL is not
positive; the user API instance is returned in every successful case. -/
def _initializeUserApi (cacheEnabled : Bool) (email password : String)
    (login : Except String LoginResult) (nowMs : Int)
    (sessionCache : List (String × (SessionData × Int))) :
    Except String (HanimeUserApi × List (String × (SessionData × Int))) :=
  match login with
  | .error e => .error e
  | .ok lr =>
    let userApi : HanimeUserApi :=
      { sessionToken := some lr.sessionToken, email := some email,
        password := some password,
        sessionTokenExpireTimeUnix := some lr.sessionTokenExpireTimeUnix }
    if cacheEnabled then
      let cacheKey := "user-session:" ++ _getCredentialsHash email password
      let sessionData : SessionData :=
        { sessionToken := lr.sessionToken,
          expiresAt := lr.sessionTokenExpireTimeUnix * 1000,
          email := email, isPremium := lr.isPremium }
      let ttl : Int := lr.sessionTokenExpireTimeUnix * 1000 - nowMs - 5 * 60 * 1000
      if 0 < ttl then .ok (userApi, assocSet sessionCache cacheKey (sessionData, ttl))
      else .ok (userApi, sessionCache)
    else .ok (userApi, sessionCache)

/-- C7: after a successful login with the session cache enabled, the
computed cache TTL is exactly `expiry_ms - now - 5min`; when it is not
positive the session cache is left untouched, and when it is positive the
session data is written under `user-session:<hash>` with exactly that TTL —
in both cases the call returns the freshly built user API instance. -/
theorem claim7_session_cache_ttl_boundary_skip (email password : String)
    (lr : LoginResult) (nowMs : Int)
    (sessionCache : List (String × (SessionData × Int))) :
    (lr.sessionTokenExpireTimeUnix * 1000 - nowMs - 5 * 60 * 1000 ≤ 0 →
      _initializeUserApi true email password (.ok lr) nowMs sessionCache =
        .ok ({ sessionToken := some lr.sessionToken, email := some email,
               password := some password,
               sessionTokenExpireTimeUnix := some lr.sessionTokenExpireTimeUnix },
             sessionCache)) ∧
    (0 < lr.sessionTokenExpireTimeUnix * 1000 - nowMs - 5 * 60 * 1000 →
      _initializeUserApi true email password (.ok lr) nowMs sessionCache =
        .ok ({ sessionToken := some lr.sessionToken, email := some email,
               password := some password,
               sessionTokenExpireTimeUnix := some lr.sessionTokenExpireTimeUnix },
             assocSet sessionCache ("user-session:" ++ _getCredentialsHash email password)
               ({ sessionToken := lr.sessionToken,
                  expiresAt := lr.sessionTokenExpireTimeUnix * 1000,
                  email := email, isPremium := lr.isPremium },
                lr.sessionTokenExpireTimeUnix * 1000 - nowMs - 5 * 60 * 1000))) := by
  constructor
  · intro h
    simp only [_initializeUserApi, if_true]
    rw [if_neg (by omega)]
  · intro h
    simp only [_initializeUserApi, if_true]
    rw [if_pos (by omega)]

theorem claim7_session_cache_ttl_boundary_skip_witness :
    ((100 : Int) * 1000 - 100000 - 5 * 60 * 1000 ≤ 0 ∧
      _initializeUserApi true "e@x.com" "pw" (.ok ⟨"tok", 100, false⟩) 100000 [] =
        .ok ({ sessionToken := some "tok", email := some "e@x.com",
               password := some "pw", sessionTokenExpireTimeUnix := some 100 }, [])) ∧
    ((0 : Int) < 1000 * 1000 - 100000 - 5 * 60 * 1000 ∧
      _initializeUserApi true "e@x.com" "pw" (.ok ⟨"tok", 1000, false⟩) 100000 [] =
        .ok ({ sessionToken := some "tok", email := some "e@x.com",
               password := some "pw", sessionTokenExpireTimeUnix := some 1000 },
             assocSet [] ("user-session:" ++ _getCredentialsHash "e@x.com" "pw")
               ({ sessionToken := "tok", expiresAt := 1000 * 1000,
                  email := "e@x.com", isPremium := false },
                1000 * 1000 - 100000 - 5 * 60 * 1000))) :=
  ⟨⟨by decide,
    (claim7_session_cache_ttl_boundary_skip "e@x.com" "pw" ⟨"tok", 100, false⟩ 100000 []).1
      (by decide)⟩,
   ⟨by decide,
    (claim7_session_cache_ttl_boundary_skip "e@x.com" "pw" ⟨"tok", 1000, false⟩ 100000 []).2
      (by decide)⟩⟩

/-- JS falsy test on the optional credential strings of the client:
`!this.email` / `!this.password` is true when the field is null or the
empty string. -/
def credentialFalsy : Option String → Bool
  | none => true
  | some s => s.isEmpty

/-- `_needsRefresh()`: with no (or falsy, i.e. zero) recorded expiry the
token must be (re)obtained; otherwise refresh exactly when
`expire - floor(now_ms / 1000) <= refreshBufferSeconds`. -/
def _needsRefresh (api : HanimeUserApi) (nowMs : Int) : Bool :=
  match api.sessionTokenExpireTimeUnix with
  | none => true
  | some expire =>
    if expire = 0 then true
    else
      let currentTimeUnix := Int.fdiv nowMs 1000
      decide (expire - currentTimeUnix ≤ refreshBufferSeconds)

/-- `_ensureValidSession()`: returns true without any call when no refresh
is due; returns false when credentials are missing; otherwise performs the
refresh login, installing the new token and expiry on success (true), and
swallowing a login failure by returning false — it never throws. -/
def _ensureValidSession (api : HanimeUserApi) (nowMs : Int)
    (login : Except String LoginResult) : Bool × HanimeUserApi :=
  if _needsRefresh api nowMs = false then (true, api)
  else if credentialFalsy api.email || credentialFalsy api.password then (false, api)
  else
    match login with
    | .ok lr =>
      (true,
        { api with
            sessionToken := some lr.sessionToken
            sessionTokenExpireTimeUnix := some lr.sessionTokenExpireTimeUnix })
    | .error _ => (false, api)

/-- `getVideoDetails(videoId)` first awaits `_ensureValidSession`, ignoring
its boolean result, then issues the data fetch: the data call proceeds
whether or not the refresh succeeded. The payload is abstracted to the
upstream call's outcome. -/
def getVideoDetails (api : HanimeUserApi) (nowMs : Int)
    (login : Except String LoginResult) (upstream : Except String String) :
    Except String String × HanimeUserApi :=
  let r := _ensureValidSession api nowMs login
  (upstream, r.2)

/-- C8: the client refreshes exactly when no expiry is recorded (or it is
the falsy 0) or `floor(now/1000) >= expire - 300`; in particular a session
expiring 100 s from now triggers a refresh while one expiring 400 s from
now does not; when a due refresh fails — missing credentials or a rejected
login — `_ensureValidSession` swallows the failure and returns false with
the session unchanged; and the data-fetching call proceeds with the
upstream result regardless, rather than throwing. -/
theorem claim8_session_refresh_boundary (t : Int) (ht : 0 ≤ t) :
    (∀ (api : HanimeUserApi) (nowMs : Int),
      _needsRefresh api nowMs = true ↔
        (api.sessionTokenExpireTimeUnix = none ∨
         ∃ expire, api.sessionTokenExpireTimeUnix = some expire ∧
           (expire = 0 ∨ expire - refreshBufferSeconds ≤ Int.fdiv nowMs 1000))) ∧
    _needsRefresh
      { sessionToken := some "tok", email := some "e", password := some "p",
        sessionTokenExpireTimeUnix := some (t + 100) } (t * 1000) = true ∧
    _needsRefresh
      { sessionToken := some "tok", email := some "e", password := some "p",
        sessionTokenExpireTimeUnix := some (t + 400) } (t * 1000) = false ∧
    (∀ (api : HanimeUserApi) (nowMs : Int) (err : String),
      _needsRefresh api nowMs = true →
      credentialFalsy api.email = false →
      credentialFalsy api.password = false →
      _ensureValidSession api nowMs (.error err) = (false, api)) ∧
    (∀ (api : HanimeUserApi) (nowMs : Int) (login : Except String LoginResult),
      _needsRefresh api nowMs = true →
      credentialFalsy api.email = true →
      _ensureValidSession api nowMs login = (false, api)) ∧
    (∀ (api : HanimeUserApi) (nowMs : Int) (login : Except String LoginResult)
        (upstream : Except String String),
      (getVideoDetails api nowMs login upstream).1 = upstream) := by
  have hfd : Int.fdiv (t * 1000) 1000 = t := by
    rw [Int.mul_fdiv_cancel _ (by norm_num)]
  refine ⟨?_, ?_, ?_, ?_, ?_, ?_⟩
  · intro api nowMs
    cases hx : api.sessionTokenExpireTimeUnix with
    | none => simp [_needsRefresh, hx]
    | some expire =>
      by_cases h0 : expire = 0
      · simp [_needsRefresh, hx, h0]
      · simp only [_needsRefresh, hx, if_neg h0, decide_eq_true_eq,
          Option.some.injEq, false_or, refreshBufferSeconds]
        constructor
        · intro h
          exact Or.inr ⟨expire, rfl, Or.inr (by omega)⟩
        · rintro (h | ⟨e, he, h | h⟩)
          · cases h
          · cases he; exact absurd h h0
          · cases he; omega
  · by_cases hz : t + 100 = 0
    · simp [_needsRefresh, hz]
    · simp only [_needsRefresh, if_neg hz, hfd, decide_eq_true_eq, refreshBufferSeconds]
      omega
  · have hz : t + 400 ≠ 0 := by omega
    simp only [_needsRefresh, if_neg hz, hfd, refreshBufferSeconds]
    simp only [decide_eq_false_iff_not]
    omega
  · intro api nowMs err hr he hp
    simp [_ensureValidSession, hr, he, hp]
  · intro api nowMs login hr he
    simp [_ensureValidSession, hr, he]
  · intro api nowMs login upstream
    rfl

theorem claim8_session_refresh_boundary_witness :
    (0 : Int) ≤ 1700000000 ∧
    (_needsRefresh
      { sessionToken := some "tok", email := some "e", password := some "p",
        sessionTokenExpireTimeUnix := some (1700000000 + 100) }
      (1700000000 * 1000) = true ∧
     _needsRefresh
      { sessionToken := some "tok", email := some "e", password := some "p",
        sessionTokenExpireTimeUnix := some (1700000000 + 400) }
      (1700000000 * 1000) = false ∧
     _ensureValidSession
      { sessionToken := some "tok", email := some "e", password := some "p",
        sessionTokenExpireTimeUnix := some (1700000000 + 100) }
      (1700000000 * 1000) (.error "bad credentials") =
        (false,
         { sessionToken := some "tok", email := some "e", password := some "p",
           sessionTokenExpireTimeUnix := some (1700000000 + 100) }) ∧
     (getVideoDetails
      { sessionToken := some "tok", email := some "e", password := some "p",
        sessionTokenExpireTimeUnix := some (1700000000 + 100) }
      (1700000000 * 1000) (.error "bad credentials") (.ok "payload")).1 = .ok "payload") := by
  have h := claim8_session_refresh_boundary 1700000000 (by decide)
  refine ⟨by decide, h.2.1, h.2.2.1, ?_, ?_⟩
  · exact h.2.2.2.1
      { sessionToken := some "tok", email := some "e", password := some "p",
        sessionTokenExpireTimeUnix := some (1700000000 + 100) }
      (1700000000 * 1000) "bad credentials" h.2.1 rfl rfl
  · exact h.2.2.2.2.2
      { sessionToken := some "tok", email := some "e", password := some "p",
        sessionTokenExpireTimeUnix := some (1700000000 + 100) }
      (1700000000 * 1000) (.error "bad credentials") (.ok "payload")
